import Mathlib

/-!
Verification of the TCO (total cost of ownership) calculators of the
`tco-eco4impact` repository.

The Python sources are shallowly embedded: every float becomes an exact
rational (`ℚ`), every int becomes `ℤ` or `ℕ`, Python dictionaries read with
`d[k]` / `d.get(k, v)` become association lists read with `lookup?` /
`lookupD`, and a computation that can raise an exception (`KeyError`,
`ValueError`, `ZeroDivisionError`) returns an `Option`, with `none` marking
the raise.  `math.exp` is kept abstract: the functions that call it take an
extra argument `e : ℚ → ℚ` standing for the exponential, so every theorem
proved for all `e` (or for all `e` with `e 0 = 1`, a fact true of the real
exponential) holds for the actual program.
-/

namespace TcoEco4Impact

/-- Python `d[k]` on a string-keyed dict, as an association-list lookup;
`none` models the `KeyError`. -/
def lookup? {α : Type} (m : List (String × α)) (k : String) : Option α :=
  (m.find? (fun p => p.1 == k)).map Prod.snd

/-- Python `d.get(k, v)` on a string-keyed dict. -/
def lookupD {α : Type} (m : List (String × α)) (k : String) (v : α) : α :=
  (lookup? m k).getD v

/-- Python `k in d` on a string-keyed dict. -/
def hasKey {α : Type} (m : List (String × α)) (k : String) : Bool :=
  (m.find? (fun p => p.1 == k)).isSome

/-! ## Capital recovery factor
`src/functions/capex_calculator.py`, `VehicleCAPEXCalculator.compute_c_financing_cost`:
```
r = adjusted_rate
n = vp.loan_years
if r > 0:
    self.c_crf = (r * (1 + r)**n) / ((1 + r)**n - 1)
else:
    self.c_crf = 1.0
```
`src/capex_calculator.py`, `FinancingSystem.compute`, computes the same
expression: `self.crf = (r * (1+r)**n) / ((1+r)**n - 1) if r > 0 else 1.0`. -/

/-- The capital recovery factor, as computed by both CAPEX variants. -/
def crf (r : ℚ) (n : ℕ) : ℚ :=
  if 0 < r then (r * (1 + r) ^ n) / ((1 + r) ^ n - 1) else 1

/-- The annuity factor `∑_{k=1}^n (1/(1+r))^k`, used to analyse `crf`. -/
def annuity (r : ℚ) (n : ℕ) : ℚ :=
  ∑ k ∈ Finset.Icc 1 n, (1 / (1 + r)) ^ k

/-! ## TCO orchestrator
`src/main_tco.py`, `run_tco_scenario`, step 5 (lines 334-352) and the
returned report (lines 391-403):
```
rv_discounted = rv_value / ((1 + interest_rate) ** N)
capex_component = (capex_total - rv_discounted) * crf
opex_component = 0.0
for n in range(1, N + 1):
    opex_pv_year = opex_annual / ((1 + interest_rate) ** n)
    opex_component += opex_pv_year
tco_total = capex_component + opex_component
... "tco_total": tco_total, "equivalent_annual_cost": tco_total / N, ...
```
The CAPEX total, CRF, annual OPEX and RV are produced by the component
calculators earlier in the function; the claim quantifies over them, so the
embedding takes them as arguments. -/

structure TCOReport where
  capex_component : ℚ
  opex_component_pv : ℚ
  rv_discounted : ℚ
  tco_total : ℚ
  equivalent_annual_cost : ℚ
  deriving Repr, DecidableEq

/-- The `for n in range(1, N + 1)` accumulation of discounted OPEX. -/
def opexComponentLoop (opex_annual interest_rate : ℚ) (N : ℕ) : ℚ :=
  (List.range N).foldl (fun acc i => acc + opex_annual / (1 + interest_rate) ^ (i + 1)) 0

/-- The TCO arithmetic of `run_tco_scenario` (steps after the component
calculators have produced `capex_total`, `crf`, `opex_annual`, `rv_value`). -/
def run_tco_scenario (capex_total crfv opex_annual rv_value interest_rate : ℚ)
    (N : ℕ) : TCOReport :=
  let rv_discounted := rv_value / (1 + interest_rate) ^ N
  let capex_component := (capex_total - rv_discounted) * crfv
  let opex_component := opexComponentLoop opex_annual interest_rate N
  let tco_total := capex_component + opex_component
  { capex_component := capex_component
    opex_component_pv := opex_component
    rv_discounted := rv_discounted
    tco_total := tco_total
    equivalent_annual_cost := tco_total / (N : ℚ) }

/-! ## Truck OPEX calculator
`src/functions/Opex_Calculator.py`, class `TruckOPEXCalculator`.  The database
is `{c["country"]: c["data_country"] for c in db["countries"]}`;
`get_db_params` raises on an unknown country, and the bracket accesses
`taxes_db["price_energy_km"]`, `crew_db["wage_of_crew_rank"]["driver"]`, etc.
raise on a missing category or required field, so the per-country record
models a database whose five categories and their required fields are
present; the leaf-level maps keyed by energy type or vehicle class stay
association lists, read exactly as the source reads them. -/

structure TruckTaxesDB where
  price_energy_km : ℚ
  tax_energy_c_e : List (String × ℚ)
  tax_reg_c_k_L : List (String × ℚ)
  tax_annual_c_k_L : List (String × ℚ)
  regional_coefficient : ℚ
  tax_CO2_c_e : ℚ
  B_env_c_k_e : List (String × ℚ)
  deriving Repr, DecidableEq

structure TruckCountryDB where
  taxes : TruckTaxesDB
  /-- `tolls` category, field `price_per_km`: vehicle class -> energy type -> price. -/
  tolls_price_per_km : List (String × List (String × ℚ))
  /-- `insurance` category, field `insurance_rate_c_L_e_safety`. -/
  insurance_rate_c_L_e_safety : List (String × ℚ)
  /-- `crew` category, `wage_of_crew_rank["driver"]` (bracket access, must exist). -/
  crew_wage_driver : ℚ
  /-- `energy` category, field `energy_price_c_e`. -/
  energy_price_c_e : List (String × ℚ)
  deriving Repr, DecidableEq

structure TruckIn where
  purchase_cost : ℚ
  type_energy : String
  size_vehicle : String
  registration_country : String
  annual_distance_travel : ℚ
  RV : ℚ
  N_years : ℚ
  team_count : ℤ
  maintenance_cost : ℚ
  consumption_energy : ℚ
  fuel_multiplier : ℚ
  EF_CO2_diesel : ℚ
  deriving Repr, DecidableEq

structure TruckOut where
  o_taxes : ℚ
  o_tolls : ℚ
  o_insurance : ℚ
  o_crew : ℚ
  o_energy : ℚ
  o_opex_total : ℚ
  deriving Repr, DecidableEq

/-- `TruckOPEXCalculator.compute_o_taxes`: every leaf lookup uses `.get` with
a default (unknown energy type -> `tax_energy` 1.0 and `B_env` 0.0, unknown
vehicle class -> `tax_reg`/`tax_annual` 0.0). -/
def truck_compute_o_taxes (s : TruckIn) (c : TruckCountryDB) : ℚ :=
  let price_energy_km := c.taxes.price_energy_km
  let tax_energy := lookupD c.taxes.tax_energy_c_e s.type_energy 1
  let tax_reg := lookupD c.taxes.tax_reg_c_k_L s.size_vehicle 0
  let tax_annual := lookupD c.taxes.tax_annual_c_k_L s.size_vehicle 0
  let regional_coefficient := c.taxes.regional_coefficient
  let tax_CO2 := c.taxes.tax_CO2_c_e
  let B_env := lookupD c.taxes.B_env_c_k_e s.type_energy 0
  let variable_taxes := s.consumption_energy * price_energy_km * tax_energy
      * s.fuel_multiplier * s.EF_CO2_diesel * tax_CO2 * regional_coefficient
  let fixed_taxes := tax_reg + tax_annual + B_env
  variable_taxes + fixed_taxes

/-- `TruckOPEXCalculator.compute_o_tolls`: raises `ValueError` when the
vehicle class or the energy type is not in `price_per_km` (`none`). -/
def truck_compute_o_tolls (s : TruckIn) (c : TruckCountryDB) : Option ℚ := do
  let class_table ← lookup? c.tolls_price_per_km s.size_vehicle
  let price_per_km ← lookup? class_table s.type_energy
  pure (price_per_km * s.annual_distance_travel)

/-- `TruckOPEXCalculator.compute_o_insurance`: raises `ValueError` when the
energy type is not in `insurance_rate_c_L_e_safety` (`none`). -/
def truck_compute_o_insurance (s : TruckIn) (c : TruckCountryDB) : Option ℚ := do
  let insurance_rate ← lookup? c.insurance_rate_c_L_e_safety s.type_energy
  pure (insurance_rate * (s.purchase_cost - s.RV))

/-- `TruckOPEXCalculator.compute_o_crew`. -/
def truck_compute_o_crew (s : TruckIn) (c : TruckCountryDB) : ℚ :=
  c.crew_wage_driver * s.N_years * (s.team_count : ℚ)

/-- `TruckOPEXCalculator.compute_o_energy`: raises `ValueError` when the
energy type is not in `energy_price_c_e` (`none`). -/
def truck_compute_o_energy (s : TruckIn) (c : TruckCountryDB) : Option ℚ := do
  let energy_price ← lookup? c.energy_price_c_e s.type_energy
  pure (s.consumption_energy * energy_price)

/-- `TruckOPEXCalculator.compute`: runs the five sub-computations (each of
which looks up `registration_country`, raising on an unknown country) and
sums them with the flat `maintenance_cost`. -/
def TruckOPEXCalculator.compute (s : TruckIn) (db : List (String × TruckCountryDB)) :
    Option TruckOut := do
  let c ← lookup? db s.registration_country
  let o_taxes := truck_compute_o_taxes s c
  let o_tolls ← truck_compute_o_tolls s c
  let o_insurance ← truck_compute_o_insurance s c
  let o_crew := truck_compute_o_crew s c
  let o_energy ← truck_compute_o_energy s c
  pure { o_taxes := o_taxes
         o_tolls := o_tolls
         o_insurance := o_insurance
         o_crew := o_crew
         o_energy := o_energy
         o_opex_total := o_taxes + o_tolls + o_insurance + o_crew + o_energy
                         + s.maintenance_cost }

/-! ## Ship OPEX calculator
`src/functions/Opex_Calculator.py`, class `ShipOPEXCalculator`.
`get_db_params` raises on an unknown country or missing category; the bracket
accesses `taxes_opex["tax_energy_c_e"]`, `tax_energy["co2_price"]`,
`crew_db["wage_of_crew_rank"]`, `energy_db["energy_price_c_e"]` raise on a
missing field, so those are plain record fields here; every leaf-level read
(ship class, energy type) stays an association-list lookup as in the source. -/

/-- `SHIP_CLASS_TO_DB_KEY` alias table. -/
def SHIP_CLASS_TO_DB_KEY : List (String × String) :=
  [("large", "ro_pax_large"), ("big", "ro_pax_large"), ("cargo_large", "ro_pax_large")]

/-- `ShipOPEXCalculator._map_ship_class_to_db_key`. -/
def map_ship_class_to_db_key (ship_class : String) : String :=
  lookupD SHIP_CLASS_TO_DB_KEY ship_class ship_class

structure ShipPortInfo where
  /-- `port_info.get("port_parameters", [])`. -/
  port_parameters : List ℚ
  /-- `port_info.get("port_discounts", [])`. -/
  port_discounts : List ℚ
  deriving Repr, DecidableEq

structure ShipInsuranceDB where
  /-- `insurance_db.get("insurance_per_type")`: `none` models an absent key. -/
  insurance_per_type : Option (List (String × ℚ))
  /-- `insurance_db.get("insurance_per_energy", {})`. -/
  insurance_per_energy : List (String × ℚ)
  deriving Repr, DecidableEq

structure ShipCountryDB where
  /-- `taxes_opex["tax_energy_c_e"]["co2_price"]`. -/
  co2_price : ℚ
  /-- the ship-class keys of `taxes_opex["tax_energy_c_e"]`:
  ship class -> energy type -> factor list `[f1, f2, f3]`. -/
  tax_energy_classes : List (String × List (String × List ℚ))
  ports : List (String × ShipPortInfo)
  insurance : ShipInsuranceDB
  /-- `crew_db["wage_of_crew_rank"]`. -/
  wage_of_crew_rank : List (String × ℚ)
  maintenance : List (String × ℚ)
  /-- `energy_db["energy_price_c_e"]`. -/
  energy_price_c_e : List (String × ℚ)
  deriving Repr, DecidableEq

structure ShipIn where
  country_reg : String
  country_oper : String
  ship_class : String
  energy_type : String
  purchase_cost : ℚ
  GT : ℚ
  planning_horizon_years : ℚ
  crew_monthly_total : ℚ
  /-- the `member.get("team_size", 0)` values of `crew_list`. -/
  crew_team_sizes : List ℤ
  annual_energy_consumption_kWh : ℚ
  fuel_mass_kg : ℚ
  deriving Repr, DecidableEq

structure ShipOut where
  o_taxes : ℚ
  o_ports : ℚ
  o_insurance : ℚ
  o_crew : ℚ
  o_maintenance : ℚ
  o_energy : ℚ
  o_opex_total : ℚ
  deriving Repr, DecidableEq

/-- `ShipOPEXCalculator.compute_o_taxes_ship`: unknown ship class or energy
type, or a factor entry shorter than three, set `o_taxes = 0.0`; the unpacking
`f1, f2, f3 = factors` raises (`none`) when the list has more than three
entries. -/
def compute_o_taxes_ship (s : ShipIn) (creg : ShipCountryDB) : Option ℚ :=
  let co2_price := creg.co2_price
  let class_key := map_ship_class_to_db_key s.ship_class
  match lookup? creg.tax_energy_classes class_key with
  | none => some 0
  | some class_table =>
    match lookup? class_table s.energy_type with
    | none => some 0
    | some factors =>
      if factors.length < 3 then some 0
      else
        match factors with
        | [f1, f2, f3] =>
          let fuel_mass_ton := s.fuel_mass_kg / 1000
          some ((fuel_mass_ton * f1 + fuel_mass_ton * f2 + fuel_mass_ton * f3) * co2_price)
        | _ => none

/-- the `for p, d in zip(params, discounts): base_factor += p * d` loop. -/
def zipDot (ps ds : List ℚ) : ℚ :=
  (List.zip ps ds).foldl (fun acc pd => acc + pd.1 * pd.2) 0

/-- `ShipOPEXCalculator.compute_o_ports_ship`: unknown ship class sets
`o_ports = 0.0`. -/
def compute_o_ports_ship (s : ShipIn) (coper : ShipCountryDB) : ℚ :=
  match lookup? coper.ports (map_ship_class_to_db_key s.ship_class) with
  | none => 0
  | some port_info => zipDot port_info.port_parameters port_info.port_discounts * s.GT

/-- `ShipOPEXCalculator.compute_o_insurance_ship` (with the placeholder
`RV_ship = 0.0`). -/
def compute_o_insurance_ship (s : ShipIn) (creg : ShipCountryDB) : ℚ :=
  let class_key := map_ship_class_to_db_key s.ship_class
  let insurance_rate :=
    match creg.insurance.insurance_per_type with
    | some per_type =>
      if hasKey per_type class_key then lookupD per_type class_key 0
      else lookupD creg.insurance.insurance_per_energy s.energy_type 0
    | none => lookupD creg.insurance.insurance_per_energy s.energy_type 0
  let RV_ship : ℚ := 0
  insurance_rate * (s.purchase_cost - RV_ship)

/-- `ShipOPEXCalculator.compute_o_crew_ship`: the guard
`if self.crew_monthly_total and self.crew_monthly_total > 0` is the float
truthiness check followed by the comparison, i.e. `0 < crew_monthly_total`. -/
def compute_o_crew_ship (s : ShipIn) (creg : ShipCountryDB) : ℚ :=
  let seafarer_wage := lookupD creg.wage_of_crew_rank "seafarer" 0
  let annual_cost :=
    if 0 < s.crew_monthly_total then s.crew_monthly_total * 12
    else
      let total_crew : ℤ := s.crew_team_sizes.foldl (fun t m => t + m) 0
      seafarer_wage * (total_crew : ℚ)
  annual_cost * s.planning_horizon_years

/-- `ShipOPEXCalculator.compute_o_energy_ship`: unknown energy type defaults
the price to 0.0. -/
def compute_o_energy_ship (s : ShipIn) (coper : ShipCountryDB) : ℚ :=
  let energy_price := lookupD coper.energy_price_c_e s.energy_type 0
  s.annual_energy_consumption_kWh * energy_price

/-- `ShipOPEXCalculator.compute_o_maintenance_ship`: reads the five outputs
already stored on the system, so it takes them as arguments here; unknown
ship class defaults the rate to 0.0. -/
def compute_o_maintenance_ship (s : ShipIn) (coper : ShipCountryDB)
    (o_taxes o_ports o_insurance o_crew o_energy : ℚ) : ℚ :=
  let maintenance_rate := lookupD coper.maintenance (map_ship_class_to_db_key s.ship_class) 0
  let base_sum := o_taxes + o_ports + o_insurance + o_crew + o_energy
  base_sum * maintenance_rate

/-- `ShipOPEXCalculator.compute`: taxes, ports, insurance, crew, energy,
then maintenance, then the total.  Taxes, insurance and crew read the
`country_reg` tables; ports, energy and maintenance read `country_oper`. -/
def ShipOPEXCalculator.compute (s : ShipIn) (db : List (String × ShipCountryDB)) :
    Option ShipOut := do
  let creg ← lookup? db s.country_reg
  let coper ← lookup? db s.country_oper
  let o_taxes ← compute_o_taxes_ship s creg
  let o_ports := compute_o_ports_ship s coper
  let o_insurance := compute_o_insurance_ship s creg
  let o_crew := compute_o_crew_ship s creg
  let o_energy := compute_o_energy_ship s coper
  let o_maintenance := compute_o_maintenance_ship s coper o_taxes o_ports o_insurance o_crew o_energy
  pure { o_taxes := o_taxes
         o_ports := o_ports
         o_insurance := o_insurance
         o_crew := o_crew
         o_maintenance := o_maintenance
         o_energy := o_energy
         o_opex_total := o_taxes + o_ports + o_insurance + o_crew + o_maintenance + o_energy }

/-! ## Residual value calculators
Two variants: `src/rv_functions.py` (namespace `RVFunctions`; final formula
`rv = total_depreciation + total_impact_health + total_external_factors`) and
`src/functions/rv_calculator.py` (namespace `RVCalcFleet`; scales each
component by `vehicle_number` and combines as
`rv = total_depreciation / total_impact_health + total_external_factors`
inside a bare `try/except`).  `math.exp` is the abstract argument `e`. -/

structure VehicleProps where
  type_vehicle : String
  type_energy : String
  registration_country : String
  purchase_cost : ℚ
  travel_measure : ℚ
  maintenance_cost : ℚ
  minimum_fuel_consumption : ℚ
  consumption_real : ℚ
  utility_factor : ℚ
  E_annual_kwh : ℚ
  C_bat_kwh : ℚ
  DoD : ℚ
  S_slow : ℚ
  S_fast : ℚ
  S_ultra : ℚ
  powertrain_model_year : ℤ
  warranty : ℚ
  type_warranty : String
  year_purchase : ℤ
  current_year : ℤ
  vehicle_number : ℤ
  autonomy : ℚ
  deriving Repr, DecidableEq

structure CountryProps where
  energy_price : ℚ
  c02_taxes : ℚ
  subsidies : ℚ
  deriving Repr, DecidableEq

/-- `compute_warranty`, textually identical in `src/rv_functions.py` (lines
230-256) and `src/functions/rv_calculator.py` (lines 210-236): `DW` starts at
0.0 and is only assigned when `type_warranty` is exactly `"year"` or `"km"`
(the final `else` just prints a message); the penalty is `(1.0 - DW) * 100`. -/
def compute_warranty (vp : VehicleProps) : ℚ :=
  let DW : ℚ :=
    if vp.type_warranty = "year" then
      let elapsed : ℤ := vp.current_year - vp.year_purchase
      if 0 < vp.warranty then 1 - ((elapsed : ℚ) / vp.warranty) else 0
    else if vp.type_warranty = "km" then
      let elapsed := vp.travel_measure
      if 0 < vp.warranty then 1 - (elapsed / vp.warranty) else 0
    else 0
  (1 - DW) * 100

namespace RVFunctions

structure DepreciationDB where
  depreciation_rate_per_year : List (String × ℚ)
  depreciation_rate_by_usage : List (String × ℚ)
  coef_depreciation_maintenance : List (String × ℚ)
  deriving Repr, DecidableEq

structure ExternalFactorsDB where
  energy_price_factor : List (String × ℚ)
  CO2_taxes_factor : ℚ
  subsidies_factor : List (String × ℚ)
  deriving Repr, DecidableEq

structure CountryDB where
  depreciation : DepreciationDB
  yearly_obsolescence_rate : List (String × ℚ)
  external_factors : ExternalFactorsDB
  deriving Repr, DecidableEq

structure VehicleDB where
  heating_value : List (String × ℚ)
  consumption_benchmark : List (String × ℚ)
  n_ev : List (String × ℚ)
  n_ice : List (String × ℚ)
  d_slow : List (String × ℚ)
  d_fast : List (String × ℚ)
  d_ultra : List (String × ℚ)
  k_d : List (String × ℚ)
  deriving Repr, DecidableEq

structure DB where
  countries : List (String × CountryDB)
  vehicle : VehicleDB
  deriving Repr, DecidableEq

/-- `ResidualValueCalculator.compute_depreciation` (rv_functions.py): every
access is a bracket access, raising `KeyError` (`none`) on a missing key. -/
def compute_depreciation (vp : VehicleProps) (db : DB) : Option ℚ := do
  let cdata ← lookup? db.countries vp.registration_country
  let rate_per_year ← lookup? cdata.depreciation.depreciation_rate_per_year vp.type_energy
  let rate_by_usage ← lookup? cdata.depreciation.depreciation_rate_by_usage vp.type_energy
  let coef_maintenance ← lookup? cdata.depreciation.coef_depreciation_maintenance vp.type_energy
  let vehicle_age : ℤ := vp.current_year - vp.year_purchase
  let dep_per_year := rate_per_year * (vehicle_age : ℚ)
  let dep_by_usage := rate_by_usage * vp.travel_measure
  let dep_maintenance := coef_maintenance * vp.maintenance_cost
  pure (vp.purchase_cost - (dep_per_year + dep_by_usage + dep_maintenance))

/-- `ResidualValueCalculator.compute_eficiency` (rv_functions.py); a division
whose denominator is zero raises `ZeroDivisionError` (`none`). -/
def compute_eficiency (vp : VehicleProps) (db : DB) : Option ℚ := do
  let n_f ←
    if vp.type_energy ∈ (["diesel", "hydrogen_h2", "cng", "lng"] : List String) then do
      let heating_value ← lookup? db.vehicle.heating_value vp.type_energy
      if vp.minimum_fuel_consumption * heating_value = 0 then none
      else pure (3600 / (vp.minimum_fuel_consumption * heating_value))
    else if vp.type_energy ∈ (["electric", "hydrogen_fuel_cell"] : List String) then do
      let consumption_benchmark ← lookup? db.vehicle.consumption_benchmark vp.type_energy
      if 0 < vp.consumption_real then pure (consumption_benchmark / vp.consumption_real)
      else pure (85 / 100)
    else if vp.type_energy ∈ (["HEV", "PHEV"] : List String) then do
      let n_ev ← lookup? db.vehicle.n_ev vp.type_energy
      let n_ice ← lookup? db.vehicle.n_ice vp.type_energy
      if 0 < vp.utility_factor ∧ vp.utility_factor < 1 then
        if n_ev = 0 ∨ n_ice = 0
            ∨ vp.utility_factor / n_ev + (1 - vp.utility_factor) / n_ice = 0 then none
        else pure (1 / (vp.utility_factor / n_ev + (1 - vp.utility_factor) / n_ice))
      else pure n_ice
    else pure (40 / 100)
  pure ((1 - n_f) * 100)

/-- `ResidualValueCalculator.compute_obsolescence` (rv_functions.py). -/
def compute_obsolescence (e : ℚ → ℚ) (vp : VehicleProps) (db : DB) : Option ℚ := do
  let cdata ← lookup? db.countries vp.registration_country
  let yearly_obsolescence_rate ← lookup? cdata.yearly_obsolescence_rate vp.type_energy
  let DM := e (-(yearly_obsolescence_rate * ((vp.current_year - vp.powertrain_model_year : ℤ) : ℚ)))
  pure ((1 - DM) * 100)

/-- `ResidualValueCalculator.compute_charging` (rv_functions.py): the whole
body is under `if type_energy == "electric"`, with `charging_penalty = 0.0`
otherwise. -/
def compute_charging (e : ℚ → ℚ) (vp : VehicleProps) (db : DB) : Option ℚ :=
  if vp.type_energy = "electric" then do
    let d_slow ← lookup? db.vehicle.d_slow vp.type_energy
    let d_fast ← lookup? db.vehicle.d_fast vp.type_energy
    let d_ultra ← lookup? db.vehicle.d_ultra vp.type_energy
    let k_d ← lookup? db.vehicle.k_d vp.type_energy
    let degradation_per_cycle := vp.S_slow * d_slow + vp.S_fast * d_fast + vp.S_ultra * d_ultra
    let cycles :=
      if 0 < vp.C_bat_kwh ∧ 0 < vp.DoD then vp.E_annual_kwh / (vp.C_bat_kwh * vp.DoD) else 0
    let D := cycles * degradation_per_cycle
    let health_charging := e (-(k_d * D))
    pure ((1 - health_charging) * 100)
  else
    pure 0

/-- `ResidualValueCalculator.compute_impact_health` (rv_functions.py). -/
def compute_impact_health (e : ℚ → ℚ) (vp : VehicleProps) (db : DB) : Option ℚ := do
  let efficiency_penalty ← compute_eficiency vp db
  let obsolescence_penalty ← compute_obsolescence e vp db
  let charging_penalty ← compute_charging e vp db
  let warranty_penalty := compute_warranty vp
  pure (efficiency_penalty + obsolescence_penalty + charging_penalty + warranty_penalty)

/-- `ResidualValueCalculator.compute_external_factors` (rv_functions.py). -/
def compute_external_factors (vp : VehicleProps) (cp : CountryProps) (db : DB) : Option ℚ := do
  let cdata ← lookup? db.countries vp.registration_country
  let energy_price_factor ← lookup? cdata.external_factors.energy_price_factor vp.type_energy
  let cO2_taxes_factor := cdata.external_factors.CO2_taxes_factor
  let subsidies_factor ← lookup? cdata.external_factors.subsidies_factor vp.type_energy
  pure (energy_price_factor * cp.energy_price + cp.c02_taxes * cO2_taxes_factor
        + cp.subsidies * subsidies_factor)

/-- `ResidualValueCalculator.compute` (rv_functions.py, lines 291-297):
`rv = total_depreciation + total_impact_health + total_external_factors`. -/
def compute (e : ℚ → ℚ) (vp : VehicleProps) (cp : CountryProps) (db : DB) : Option ℚ := do
  let total_depreciation ← compute_depreciation vp db
  let total_impact_health ← compute_impact_health e vp db
  let total_external_factors ← compute_external_factors vp cp db
  pure (total_depreciation + total_impact_health + total_external_factors)

end RVFunctions

namespace RVCalcFleet

structure DepreciationDB where
  depreciation_rate_per_year : List (String × ℚ)
  r_usage : List (String × ℚ)
  coef_depreciation_maintenance : List (String × ℚ)
  deriving Repr, DecidableEq

structure CountryDB where
  depreciation : DepreciationDB
  yearly_obsolescence_rate : List (String × ℚ)
  /-- same three fields as in the other variant. -/
  external_factors : RVFunctions.ExternalFactorsDB
  deriving Repr, DecidableEq

structure VehicleDB where
  heating_value : List (String × ℚ)
  d_slow : List (String × ℚ)
  d_fast : List (String × ℚ)
  d_ultra : List (String × ℚ)
  k_d : List (String × ℚ)
  deriving Repr, DecidableEq

structure DB where
  countries : List (String × CountryDB)
  vehicle : VehicleDB
  deriving Repr, DecidableEq

/-- `ResidualValueCalculator.compute_depreciation` (functions/rv_calculator.py):
like the other variant but with `r_usage` and a final
`total_depreciation * number_of_vehicles`. -/
def compute_depreciation (vp : VehicleProps) (db : DB) : Option ℚ := do
  let cdata ← lookup? db.countries vp.registration_country
  let rate_per_year ← lookup? cdata.depreciation.depreciation_rate_per_year vp.type_energy
  let rate_by_usage ← lookup? cdata.depreciation.r_usage vp.type_energy
  let coef_maintenance ← lookup? cdata.depreciation.coef_depreciation_maintenance vp.type_energy
  let vehicle_age : ℤ := vp.current_year - vp.year_purchase
  let dep_per_year := rate_per_year * (vehicle_age : ℚ)
  let dep_by_usage := rate_by_usage * vp.travel_measure
  let dep_maintenance := coef_maintenance * vp.maintenance_cost
  pure ((vp.purchase_cost - (dep_per_year + dep_by_usage + dep_maintenance))
        * (vp.vehicle_number : ℚ))

/-- `ResidualValueCalculator.compute_eficiency` (functions/rv_calculator.py):
the combustion list is the `DIESEL`/.../`H2_ICE` family, the electric family
is `BEV`/`FCEV` with benchmark `C_bat_kwh / autonomy`. -/
def compute_eficiency (vp : VehicleProps) (db : DB) : Option ℚ := do
  let n_f ←
    if vp.type_energy ∈
        (["DIESEL", "BIO_DIESEL", "HVO", "E_DIESEL", "CNG", "LNG", "H2_ICE"] : List String) then do
      let heating_value ← lookup? db.vehicle.heating_value vp.type_energy
      if vp.minimum_fuel_consumption * heating_value = 0 then none
      else pure (3600 / (vp.minimum_fuel_consumption * heating_value))
    else if vp.type_energy ∈ (["BEV", "FCEV"] : List String) then
      if vp.autonomy = 0 then none
      else
        let consumption_benchmark := vp.C_bat_kwh / vp.autonomy
        if 0 < vp.consumption_real then pure (consumption_benchmark / vp.consumption_real)
        else pure (85 / 100)
    else if vp.type_energy ∈ (["HEV", "PHEV"] : List String) then do
      let heating_value ← lookup? db.vehicle.heating_value vp.type_energy
      if vp.minimum_fuel_consumption * heating_value = 0 then none
      else
        let n_ice := 3600 / (vp.minimum_fuel_consumption * heating_value)
        if vp.autonomy = 0 then none
        else
          let consumption_benchmark := vp.C_bat_kwh / vp.autonomy
          let n_ev :=
            if 0 < vp.consumption_real then consumption_benchmark / vp.consumption_real
            else 85 / 100
          if 0 < vp.utility_factor ∧ vp.utility_factor < 1 then
            if n_ev = 0 ∨ vp.utility_factor / n_ev + (1 - vp.utility_factor) / n_ice = 0 then none
            else pure (1 / (vp.utility_factor / n_ev + (1 - vp.utility_factor) / n_ice))
          else pure n_ice
    else pure (40 / 100)
  pure ((1 - n_f) * 100)

/-- `ResidualValueCalculator.compute_obsolescence` (functions/rv_calculator.py). -/
def compute_obsolescence (e : ℚ → ℚ) (vp : VehicleProps) (db : DB) : Option ℚ := do
  let cdata ← lookup? db.countries vp.registration_country
  let yearly_obsolescence_rate ← lookup? cdata.yearly_obsolescence_rate vp.type_energy
  let DM := e (-(yearly_obsolescence_rate * ((vp.current_year - vp.powertrain_model_year : ℤ) : ℚ)))
  pure ((1 - DM) * 100)

/-- `ResidualValueCalculator.compute_charging` (functions/rv_calculator.py,
lines 167-207): the whole body is under `if type_energy == "electric"`, with
`charging_penalty = 0.0` otherwise. -/
def compute_charging (e : ℚ → ℚ) (vp : VehicleProps) (db : DB) : Option ℚ :=
  if vp.type_energy = "electric" then do
    let d_slow ← lookup? db.vehicle.d_slow vp.type_energy
    let d_fast ← lookup? db.vehicle.d_fast vp.type_energy
    let d_ultra ← lookup? db.vehicle.d_ultra vp.type_energy
    let k_d ← lookup? db.vehicle.k_d vp.type_energy
    let degradation_per_cycle := vp.S_slow * d_slow + vp.S_fast * d_fast + vp.S_ultra * d_ultra
    let cycles :=
      if 0 < vp.C_bat_kwh ∧ 0 < vp.DoD then vp.E_annual_kwh / (vp.C_bat_kwh * vp.DoD) else 0
    let D := cycles * degradation_per_cycle
    let health_charging := e (-(k_d * D))
    pure ((1 - health_charging) * 100)
  else
    pure 0

/-- `ResidualValueCalculator.compute_impact_health` (functions/rv_calculator.py):
the sum of the four penalties times `vehicle_number`. -/
def compute_impact_health (e : ℚ → ℚ) (vp : VehicleProps) (db : DB) : Option ℚ := do
  let efficiency_penalty ← compute_eficiency vp db
  let obsolescence_penalty ← compute_obsolescence e vp db
  let charging_penalty ← compute_charging e vp db
  let warranty_penalty := compute_warranty vp
  pure ((efficiency_penalty + obsolescence_penalty + charging_penalty + warranty_penalty)
        * (vp.vehicle_number : ℚ))

/-- `ResidualValueCalculator.compute_external_factors` (functions/rv_calculator.py):
like the other variant, times `vehicle_number`. -/
def compute_external_factors (vp : VehicleProps) (cp : CountryProps) (db : DB) : Option ℚ := do
  let cdata ← lookup? db.countries vp.registration_country
  let energy_price_factor ← lookup? cdata.external_factors.energy_price_factor vp.type_energy
  let cO2_taxes_factor := cdata.external_factors.CO2_taxes_factor
  let subsidies_factor ← lookup? cdata.external_factors.subsidies_factor vp.type_energy
  pure ((energy_price_factor * cp.energy_price + cp.c02_taxes * cO2_taxes_factor
         + cp.subsidies * subsidies_factor) * (vp.vehicle_number : ℚ))

/-- The three steps of `ResidualValueCalculator.compute`
(functions/rv_calculator.py) inside the `try` block. -/
def computeSteps (e : ℚ → ℚ) (vp : VehicleProps) (cp : CountryProps) (db : DB) :
    Option (ℚ × ℚ × ℚ) := do
  let total_depreciation ← compute_depreciation vp db
  let total_impact_health ← compute_impact_health e vp db
  let total_external_factors ← compute_external_factors vp cp db
  pure (total_depreciation, total_impact_health, total_external_factors)

/-- `ResidualValueCalculator.compute` (functions/rv_calculator.py, lines
274-284): `rv = self.total_depreciation / self.total_impact_health +
self.total_external_factors` inside `try`; any exception (a failed lookup, or
the division by a zero `total_impact_health`) is caught by the bare `except`,
leaving `rv` at its initial outward value 0.0. -/
def compute (e : ℚ → ℚ) (vp : VehicleProps) (cp : CountryProps) (db : DB) : ℚ :=
  match computeSteps e vp cp db with
  | none => 0
  | some (total_depreciation, total_impact_health, total_external_factors) =>
    if total_impact_health = 0 then 0
    else total_depreciation / total_impact_health + total_external_factors

end RVCalcFleet

/-! ## CAPEX infrastructure cost, variant `VehicleCAPEXCalculator`
`src/functions/capex_calculator.py`.  Every database read goes through
`country_data.get(..., {})` chains, so the per-country record below carries
the already-unnested containers, with an `empty` value standing for the `{}`
defaults (and for `self._countries.get(country, {})` on an unknown country);
parameter dicts stay association lists because the source reads them with
`.get(key, default)` where the default differs per call site.  A Python
`ZeroDivisionError` (division by `vehicle_number` or by a zero hour
capacity) is `none`. -/

structure FleetVData where
  E_t : ℚ
  Private_S_t : ℚ
  Private_F_t : ℚ
  Private_U_t : ℚ
  Private_t : ℚ
  deriving Repr, DecidableEq

structure CapexCountryDB where
  /-- `infrastructure.chargers`: charger type -> parameter dict. -/
  chargers : List (String × List (String × ℚ))
  /-- `infrastructure.stations`: station type -> parameter dict. -/
  stations : List (String × List (String × ℚ))
  /-- `infrastructure.grid_connection.tiers`: list of tier dicts. -/
  grid_tiers : List (List (String × ℚ))
  /-- `infrastructure.software`: powertrain family -> cost dict. -/
  software : List (String × List (String × ℚ))
  /-- `infrastructure.site_preparation.cost_eur`: energy type -> cost. -/
  site_preparation_cost_eur : List (String × ℚ)
  /-- `infrastructure.safety.cost_per_station_eur`: energy type -> cost. -/
  safety_cost_per_station_eur : List (String × ℚ)
  /-- `licensing`: energy type -> cost. -/
  licensing : List (String × ℚ)
  deriving Repr, DecidableEq

/-- The record of empty `{}` defaults. -/
def CapexCountryDB.empty : CapexCountryDB :=
  { chargers := [], stations := [], grid_tiers := [], software := []
    site_preparation_cost_eur := [], safety_cost_per_station_eur := [], licensing := [] }

structure CapexIn where
  type_energy : String
  registration_country : String
  vehicle_number : ℤ
  vehicle_id : ℤ
  vehicle_dict : List (String × FleetVData)
  n_slow : Option ℤ
  n_fast : Option ℤ
  n_ultra : Option ℤ
  n_stations : ℤ
  smart_charging_enabled : Bool
  deriving Repr, DecidableEq

/-- `VehicleCAPEXCalculator.get_country_data`:
`self._countries.get(registration_country, {})`. -/
def get_country_data (db : List (String × CapexCountryDB)) (vp : CapexIn) : CapexCountryDB :=
  lookupD db vp.registration_country CapexCountryDB.empty

/-- `VehicleCAPEXCalculator.get_grid_cost`: the first tier whose
`max_power_kw` is at least the total power wins, else the last tier, else 0. -/
def get_grid_cost (tiers : List (List (String × ℚ))) (total_power_kw : ℚ) : ℚ :=
  match tiers.find? (fun tier => decide (total_power_kw ≤ lookupD tier "max_power_kw" 0)) with
  | some tier => lookupD tier "cost_eur" 0
  | none =>
    match tiers.getLast? with
    | some tier => lookupD tier "cost_eur" 0
    | none => 0

/-- `VehicleCAPEXCalculator.get_software_cost`. -/
def get_software_cost (vp : CapexIn) (c : CapexCountryDB) : ℚ :=
  if vp.type_energy ∈ (["BEV", "PHEV"] : List String) then
    let bet_data := lookupD c.software "BEV" []
    let base := lookupD bet_data "base_cost_eur" 0
    if vp.smart_charging_enabled then base + lookupD bet_data "load_management_addon_eur" 0
    else base
  else if vp.type_energy ∈ (["FCET", "H2_ICE"] : List String) then
    lookupD (lookupD c.software "FCET" []) "H2_ICE_monitoring_cost_eur" 0
  else if vp.type_energy ∈ (["GNV", "LNG"] : List String) then
    let key := if vp.type_energy = "GNV" then "GNV" else "LNG"
    lookupD (lookupD c.software key []) "gas_monitoring_cost_eur" 0
  else 0

/-- `VehicleCAPEXCalculator.compute_fleet_energy`: the four `E_total_*`
outputs (slow, fast, ultra, private). -/
def compute_fleet_energy (vp : CapexIn) : ℚ × ℚ × ℚ × ℚ :=
  if vp.type_energy ∈ (["BEV", "PHEV"] : List String) then
    (vp.vehicle_dict.foldl (fun a kv => a + kv.2.E_t * kv.2.Private_S_t) 0,
     vp.vehicle_dict.foldl (fun a kv => a + kv.2.E_t * kv.2.Private_F_t) 0,
     vp.vehicle_dict.foldl (fun a kv => a + kv.2.E_t * kv.2.Private_U_t) 0,
     0)
  else
    (0, 0, 0, vp.vehicle_dict.foldl (fun a kv => a + kv.2.E_t * kv.2.Private_t) 0)

/-- The all-zero `{}` default of `vehicle_dict.get(str(vehicle_id), {})`. -/
def FleetVData.empty : FleetVData :=
  { E_t := 0, Private_S_t := 0, Private_F_t := 0, Private_U_t := 0, Private_t := 0 }

/-- `VehicleCAPEXCalculator._compute_charging_infrastructure` (BEV/PHEV):
returns `(hardware, grid, installation)`. -/
def charging_infrastructure (vp : CapexIn) (c : CapexCountryDB)
    (E_total_slow E_total_fast E_total_ultra : ℚ) : Option (ℚ × ℚ × ℚ) := do
  let slow_params := lookupD c.chargers "slow" []
  let fast_params := lookupD c.chargers "fast" []
  let ultra_params := lookupD c.chargers "ultra" []
  let counts : ℤ × ℤ × ℤ ←
    if vp.n_slow = none ∧ vp.n_fast = none ∧ vp.n_ultra = none then do
      let H_demand_slow ←
        if 0 < E_total_slow then
          let d := lookupD slow_params "power_kw" 1 * lookupD slow_params "charging_efficiency" (95/100)
          if d = 0 then none else some (E_total_slow / d)
        else some 0
      let H_demand_fast ←
        if 0 < E_total_fast then
          let d := lookupD fast_params "power_kw" 1 * lookupD fast_params "charging_efficiency" (95/100)
          if d = 0 then none else some (E_total_fast / d)
        else some 0
      let H_demand_ultra ←
        if 0 < E_total_ultra then
          let d := lookupD ultra_params "power_kw" 1 * lookupD ultra_params "charging_efficiency" (95/100)
          if d = 0 then none else some (E_total_ultra / d)
        else some 0
      let H_cap_slow := lookupD slow_params "operating_hours_per_day" 20
          * lookupD slow_params "operating_days_per_year" 365
      let H_cap_fast := lookupD fast_params "operating_hours_per_day" 20
          * lookupD fast_params "operating_days_per_year" 365
      let H_cap_ultra := lookupD ultra_params "operating_hours_per_day" 20
          * lookupD ultra_params "operating_days_per_year" 365
      let n_slow_c ←
        if 0 < H_demand_slow then
          if H_cap_slow = 0 then none else some ⌈H_demand_slow / H_cap_slow⌉
        else some 0
      let n_fast_c ←
        if 0 < H_demand_fast then
          if H_cap_fast = 0 then none else some ⌈H_demand_fast / H_cap_fast⌉
        else some 0
      let n_ultra_c ←
        if 0 < H_demand_ultra then
          if H_cap_ultra = 0 then none else some ⌈H_demand_ultra / H_cap_ultra⌉
        else some 0
      pure (n_slow_c, n_fast_c, n_ultra_c)
    else
      pure (vp.n_slow.getD 0, vp.n_fast.getD 0, vp.n_ultra.getD 0)
  let (n_slow_c, n_fast_c, n_ultra_c) := counts
  let vdata := lookupD vp.vehicle_dict (toString vp.vehicle_id) FleetVData.empty
  let share_slow := if 0 < E_total_slow then vdata.E_t * vdata.Private_S_t / E_total_slow else 0
  let share_fast := if 0 < E_total_fast then vdata.E_t * vdata.Private_F_t / E_total_fast else 0
  let share_ultra := if 0 < E_total_ultra then vdata.E_t * vdata.Private_U_t / E_total_ultra else 0
  let hardware := (n_slow_c : ℚ) * lookupD slow_params "price_eur" 0 * share_slow
      + (n_fast_c : ℚ) * lookupD fast_params "price_eur" 0 * share_fast
      + (n_ultra_c : ℚ) * lookupD ultra_params "price_eur" 0 * share_ultra
  let total_power := (n_slow_c : ℚ) * lookupD slow_params "power_kw" 0
      + (n_fast_c : ℚ) * lookupD fast_params "power_kw" 0
      + (n_ultra_c : ℚ) * lookupD ultra_params "power_kw" 0
  let grid_cost_total := get_grid_cost c.grid_tiers total_power
  let vehicle_power := (n_slow_c : ℚ) * lookupD slow_params "power_kw" 0 * share_slow
      + (n_fast_c : ℚ) * lookupD fast_params "power_kw" 0 * share_fast
      + (n_ultra_c : ℚ) * lookupD ultra_params "power_kw" 0 * share_ultra
  let contribution := if 0 < total_power then vehicle_power / total_power else 0
  let grid := grid_cost_total * contribution
  let installation := (n_slow_c : ℚ) * lookupD slow_params "installation_cost_eur" 0 * share_slow
      + (n_fast_c : ℚ) * lookupD fast_params "installation_cost_eur" 0 * share_fast
      + (n_ultra_c : ℚ) * lookupD ultra_params "installation_cost_eur" 0 * share_ultra
  pure (hardware, grid, installation)

/-- the `station_type_map` of `_compute_fueling_infrastructure`. -/
def station_type_map : List (String × String) :=
  [("DIESEL", "diesel"), ("BIO_DIESEL", "diesel"), ("HVO", "hvo"), ("E_DIESEL", "diesel"),
   ("HEV", "diesel"), ("FCET", "H2_ICE"), ("H2_ICE", "H2_ICE"), ("GNV", "GNV"), ("LNG", "LNG")]

/-- `VehicleCAPEXCalculator._compute_fueling_infrastructure` (non-electric):
returns `(hardware, grid, installation)`; the installation line divides by
`vp.vehicle_number` with no guard, so `vehicle_number = 0` is `none`. -/
def fueling_infrastructure (vp : CapexIn) (c : CapexCountryDB)
    (E_total_private : ℚ) : Option (ℚ × ℚ × ℚ) :=
  let station_type := lookupD station_type_map vp.type_energy "diesel"
  let station_params := lookupD c.stations station_type []
  let n_stations_calc : ℤ := if vp.n_stations = 0 then 1 else vp.n_stations
  let vdata := lookupD vp.vehicle_dict (toString vp.vehicle_id) FleetVData.empty
  let share_private :=
    if 0 < E_total_private then vdata.E_t * vdata.Private_t / E_total_private else 0
  let hardware := lookupD station_params "hardware_cost_per_station_eur" 0
      * share_private * (n_stations_calc : ℚ)
  let grid :=
    if station_type = "H2_ICE" then
      (n_stations_calc : ℚ) * lookupD station_params "electrolyzer_grid_connection_cost_eur" 0
        * share_private
    else if station_type ∈ (["GNV", "LNG"] : List String) then
      (n_stations_calc : ℚ) * lookupD station_params "electricity_connection_cost_eur" 0
        * share_private
    else 0
  if vp.vehicle_number = 0 then none
  else
    let installation := (n_stations_calc : ℚ)
        * lookupD station_params "installation_cost_per_station_eur"
            (lookupD station_params "installation_cost_per_pump_eur" 0)
        / (vp.vehicle_number : ℚ)
    some (hardware, grid, installation)

structure CapexInfraOut where
  c_infrastructure_hardware : ℚ
  c_infrastructure_grid : ℚ
  c_infrastructure_installation : ℚ
  c_infrastructure_cost : ℚ
  deriving Repr, DecidableEq

/-- `VehicleCAPEXCalculator.compute_c_infrastructure_cost` (lines 217-252),
including the `compute_fleet_energy` step that `compute` runs just before it:
the software, site, safety and licensing costs are divided by
`vp.vehicle_number` with no guard, so `vehicle_number = 0` raises
`ZeroDivisionError` (`none`). -/
def compute_c_infrastructure_cost (vp : CapexIn) (db : List (String × CapexCountryDB)) :
    Option CapexInfraOut := do
  let c := get_country_data db vp
  let (E_total_slow, E_total_fast, E_total_ultra, E_total_private) := compute_fleet_energy vp
  let (hardware, grid, installation) ←
    if vp.type_energy ∈ (["BEV", "PHEV"] : List String) then
      charging_infrastructure vp c E_total_slow E_total_fast E_total_ultra
    else
      fueling_infrastructure vp c E_total_private
  if vp.vehicle_number = 0 then none
  else
    let software_cost := get_software_cost vp c / (vp.vehicle_number : ℚ)
    let site_cost := lookupD c.site_preparation_cost_eur vp.type_energy 0 / (vp.vehicle_number : ℚ)
    let n_stations_calc : ℤ := if vp.n_stations = 0 then 1 else vp.n_stations
    let safety_cost := lookupD c.safety_cost_per_station_eur vp.type_energy 0
        * (n_stations_calc : ℚ) / (vp.vehicle_number : ℚ)
    let licensing_cost := lookupD c.licensing vp.type_energy 0 / (vp.vehicle_number : ℚ)
    some { c_infrastructure_hardware := hardware
           c_infrastructure_grid := grid
           c_infrastructure_installation := installation
           c_infrastructure_cost := hardware + software_cost + grid + installation
               + site_cost + safety_cost + licensing_cost }

/-! ## CAPEX infrastructure cost, variant `InfrastructureSystem`
`src/capex_calculator.py`, lines 174-330.  This variant reads parameter
fields with brackets (raising on a missing field, `none`) and guards every
division by the fleet size with `max(self.vehicle_number, 1)`.  The
non-electric hardware branch reads `self.D_t`, which is not a declared
attribute of the system, so evaluating it raises `AttributeError` (`none`);
and several spots multiply `self.n_stations` or a `n_*_calculated` that may
still be Python `None`, raising `TypeError` (`none`). -/

namespace InfraSys

structure GridTier where
  max_power_kw : ℚ
  cost_eur : ℚ
  deriving Repr, DecidableEq

structure DBv where
  chargers : List (String × List (String × ℚ))
  stations : List (String × List (String × ℚ))
  grid_tiers : List GridTier
  software : List (String × List (String × ℚ))
  site_preparation : List (String × List (String × ℚ))
  safety : List (String × List (String × ℚ))
  licensing : List (String × List (String × ℚ))
  deriving Repr, DecidableEq

structure In where
  powertrain_type : String
  vehicle_number : ℤ
  E_t : ℚ
  S_t : ℚ
  F_t : ℚ
  U_t : ℚ
  n_slow : Option ℤ
  n_fast : Option ℤ
  n_ultra : Option ℤ
  E_total_slow : ℚ
  E_total_fast : ℚ
  E_total_ultra : ℚ
  E_total_private : ℚ
  n_stations : Option ℤ
  smart_charging_enabled : Bool
  country : String
  deriving Repr, DecidableEq

structure Out where
  hardware_cost : ℚ
  software_cost : ℚ
  grid_cost : ℚ
  installation_cost : ℚ
  site_cost : ℚ
  safety_cost : ℚ
  licensing_cost : ℚ
  infrastructure_cost_per_vehicle : ℚ
  deriving Repr, DecidableEq

/-- `DatabaseLoader.get_grid_cost`: bracket accesses; `tiers[-1]` on an empty
list raises `IndexError` (`none`). -/
def get_grid_cost (db : DBv) (total_power_kw : ℚ) : Option ℚ :=
  match db.grid_tiers.find? (fun t => decide (total_power_kw ≤ t.max_power_kw)) with
  | some t => some t.cost_eur
  | none => db.grid_tiers.getLast?.map GridTier.cost_eur

/-- `DatabaseLoader.get_software_cost`: bracket accesses raise (`none`). -/
def get_software_cost (db : DBv) (powertrain_type : String) (smart_charging : Bool) :
    Option ℚ :=
  if powertrain_type ∈ (["bet", "phev"] : List String) then do
    let bet ← lookup? db.software "bet"
    let base ← lookup? bet "base_cost_eur"
    if smart_charging then do
      let addon ← lookup? bet "load_management_addon_eur"
      pure (base + addon)
    else pure base
  else if powertrain_type ∈ (["fcet", "hice"] : List String) then do
    let fcet ← lookup? db.software "fcet"
    lookup? fcet "h2_monitoring_cost_eur"
  else if powertrain_type ∈ (["gnv", "lng"] : List String) then do
    let gnv ← lookup? db.software "gnv"
    lookup? gnv "gas_monitoring_cost_eur"
  else pure 0

/-- `DatabaseLoader.get_site_cost`. -/
def get_site_cost (db : DBv) (powertrain_type : String) : ℚ :=
  lookupD (lookupD db.site_preparation powertrain_type []) "cost_eur" 0

/-- `DatabaseLoader.get_safety_cost`. -/
def get_safety_cost (db : DBv) (powertrain_type : String) (n_stations : ℤ) : ℚ :=
  let safety := lookupD db.safety powertrain_type []
  match lookup? safety "cost_per_station_eur" with
  | some v => v * (n_stations : ℚ)
  | none =>
    match lookup? safety "cost_total_eur" with
    | some v => v
    | none => 0

/-- `DatabaseLoader.get_licensing_cost`. -/
def get_licensing_cost (db : DBv) (powertrain_type country : String) : ℚ :=
  lookupD (lookupD db.licensing country []) powertrain_type 0

/-- `InfrastructureSystem._calculate_hardware`. -/
def calculate_hardware (db : DBv) (s : In)
    (n_slow_c n_fast_c n_ultra_c : Option ℤ) (share_slow share_fast share_ultra : ℚ) :
    Option ℚ :=
  if s.powertrain_type ∈ (["bet", "phev"] : List String) then do
    let ns ← n_slow_c
    let nf ← n_fast_c
    let nu ← n_ultra_c
    let fast_params := lookupD db.chargers "fast" []
    let ultra_params := lookupD db.chargers "ultra" []
    let fast_price ← lookup? fast_params "price_eur"
    let ultra_price ← lookup? ultra_params "price_eur"
    pure ((ns : ℚ) * (nf : ℚ) * fast_price * share_slow
          + (nf : ℚ) * fast_price * share_fast
          + (nu : ℚ) * ultra_price * share_ultra)
  else
    let station_type :=
      if s.powertrain_type ∈ (["diesel", "biodiesel", "hvo", "e_diesel", "hev"] : List String)
        then "diesel"
      else if s.powertrain_type ∈ (["fcet", "hice"] : List String) then "h2"
      else if s.powertrain_type = "gnv" then "gnv"
      else if s.powertrain_type = "lng" then "lng"
      else "diesel"
    let station_params := lookupD db.stations station_type []
    if 0 < s.E_total_private then none
    else do
      let n_st ← s.n_stations
      pure ((0 : ℚ) * (n_st : ℚ) * lookupD station_params "hardware_cost_per_station_eur" 0)

/-- `InfrastructureSystem._calculate_grid`. -/
def calculate_grid (db : DBv) (s : In)
    (n_slow_c n_fast_c n_ultra_c : Option ℤ) (share_slow share_fast share_ultra : ℚ)
    (n_stations_calculated : ℤ) : Option ℚ :=
  if s.powertrain_type ∈ (["bet", "phev"] : List String) then do
    let ns ← n_slow_c
    let nf ← n_fast_c
    let nu ← n_ultra_c
    let slow_params := lookupD db.chargers "slow" []
    let fast_params := lookupD db.chargers "fast" []
    let ultra_params := lookupD db.chargers "ultra" []
    let p_slow ← lookup? slow_params "power_kw"
    let p_fast ← lookup? fast_params "power_kw"
    let p_ultra ← lookup? ultra_params "power_kw"
    let total_power := (ns : ℚ) * p_slow + (nf : ℚ) * p_fast + (nu : ℚ) * p_ultra
    let grid_cost_total ← get_grid_cost db total_power
    let vehicle_power := (ns : ℚ) * p_slow * share_slow + (nf : ℚ) * p_fast * share_fast
        + (nu : ℚ) * p_ultra * share_ultra
    let contribution := if 0 < total_power then vehicle_power / total_power else 0
    pure (grid_cost_total * contribution)
  else if s.powertrain_type ∈ (["fcet", "hice"] : List String) then
    let h2_params := lookupD db.stations "h2" []
    pure ((n_stations_calculated : ℚ)
          * lookupD h2_params "electrolyzer_grid_connection_cost_eur" 0
          / ((max s.vehicle_number 1 : ℤ) : ℚ))
  else if s.powertrain_type ∈ (["gnv", "lng"] : List String) then
    let station_params := lookupD db.stations s.powertrain_type []
    pure ((n_stations_calculated : ℚ)
          * lookupD station_params "electricity_connection_cost_eur" 0
          / ((max s.vehicle_number 1 : ℤ) : ℚ))
  else pure 0

/-- `InfrastructureSystem._calculate_installation`. -/
def calculate_installation (db : DBv) (s : In)
    (n_slow_c n_fast_c n_ultra_c : Option ℤ) (share_slow share_fast share_ultra : ℚ)
    (n_stations_calculated : ℤ) : Option ℚ :=
  if s.powertrain_type ∈ (["bet", "phev"] : List String) then do
    let ns ← n_slow_c
    let nf ← n_fast_c
    let nu ← n_ultra_c
    let slow_params := lookupD db.chargers "slow" []
    let fast_params := lookupD db.chargers "fast" []
    let ultra_params := lookupD db.chargers "ultra" []
    let i_slow ← lookup? slow_params "installation_cost_eur"
    let i_fast ← lookup? fast_params "installation_cost_eur"
    let i_ultra ← lookup? ultra_params "installation_cost_eur"
    pure ((ns : ℚ) * i_slow * share_slow + (nf : ℚ) * i_fast * share_fast
          + (nu : ℚ) * i_ultra * share_ultra)
  else if s.powertrain_type ∈ (["fcet", "hice"] : List String) then
    let h2_params := lookupD db.stations "h2" []
    pure ((n_stations_calculated : ℚ)
          * lookupD h2_params "installation_cost_per_station_eur" 0
          / ((max s.vehicle_number 1 : ℤ) : ℚ))
  else if s.powertrain_type ∈ (["gnv", "lng"] : List String) then
    let station_params := lookupD db.stations s.powertrain_type []
    pure ((n_stations_calculated : ℚ)
          * lookupD station_params "installation_cost_per_station_eur" 0
          / ((max s.vehicle_number 1 : ℤ) : ℚ))
  else
    let diesel_params := lookupD db.stations "diesel" []
    pure ((n_stations_calculated : ℚ)
          * lookupD diesel_params "installation_cost_per_pump_eur" 0
          / ((max s.vehicle_number 1 : ℤ) : ℚ))

/-- `InfrastructureSystem.compute` (the division-guard lines are 243-251):
charger sizing, shares, then the seven cost components, where the software,
site, safety and licensing shares divide by `max(self.vehicle_number, 1)`. -/
def compute (s : In) (db : DBv) : Option Out := do
  let slow_params := lookupD db.chargers "slow" []
  let fast_params := lookupD db.chargers "fast" []
  let ultra_params := lookupD db.chargers "ultra" []
  let counts : Option ℤ × Option ℤ × Option ℤ ←
    if s.n_slow = none ∧ s.n_fast = none ∧ s.n_ultra = none then do
      let H_demand_slow ←
        if 0 < s.E_total_slow then do
          let p ← lookup? slow_params "power_kw"
          let eff ← lookup? slow_params "charging_efficiency"
          if p * eff = 0 then none else pure (s.E_total_slow / (p * eff))
        else pure 0
      let H_demand_fast ←
        if 0 < s.E_total_fast then do
          let p ← lookup? fast_params "power_kw"
          let eff ← lookup? fast_params "charging_efficiency"
          if p * eff = 0 then none else pure (s.E_total_fast / (p * eff))
        else pure 0
      let H_demand_ultra ←
        if 0 < s.E_total_ultra then do
          let p ← lookup? ultra_params "power_kw"
          let eff ← lookup? ultra_params "charging_efficiency"
          if p * eff = 0 then none else pure (s.E_total_ultra / (p * eff))
        else pure 0
      let hs ← lookup? slow_params "operating_hours_per_day"
      let ds ← lookup? slow_params "operating_days_per_year"
      let H_cap_slow := hs * ds
      let hf ← lookup? fast_params "operating_hours_per_day"
      let df ← lookup? fast_params "operating_days_per_year"
      let H_cap_fast := hf * df
      let hu ← lookup? ultra_params "operating_hours_per_day"
      let du ← lookup? ultra_params "operating_days_per_year"
      let H_cap_ultra := hu * du
      let n_slow_c ←
        if 0 < H_demand_slow then
          if H_cap_slow = 0 then none else pure ⌈H_demand_slow / H_cap_slow⌉
        else pure 0
      let n_fast_c ←
        if 0 < H_demand_fast then
          if H_cap_fast = 0 then none else pure ⌈H_demand_fast / H_cap_fast⌉
        else pure 0
      let n_ultra_c ←
        if 0 < H_demand_ultra then
          if H_cap_ultra = 0 then none else pure ⌈H_demand_ultra / H_cap_ultra⌉
        else pure 0
      pure (some n_slow_c, some n_fast_c, some n_ultra_c)
    else
      pure (s.n_slow, s.n_fast, s.n_ultra)
  let share_slow := if 0 < s.E_total_slow then s.E_t * s.S_t / s.E_total_slow else 0
  let share_fast := if 0 < s.E_total_fast then s.E_t * s.F_t / s.E_total_fast else 0
  let share_ultra := if 0 < s.E_total_ultra then s.E_t * s.U_t / s.E_total_ultra else 0
  let n_stations_calculated : ℤ := s.n_stations.getD 1
  let hardware_cost ← calculate_hardware db s counts.1 counts.2.1 counts.2.2
      share_slow share_fast share_ultra
  let sw ← get_software_cost db s.powertrain_type s.smart_charging_enabled
  let software_cost := sw / ((max s.vehicle_number 1 : ℤ) : ℚ)
  let grid_cost ← calculate_grid db s counts.1 counts.2.1 counts.2.2
      share_slow share_fast share_ultra n_stations_calculated
  let installation_cost ← calculate_installation db s counts.1 counts.2.1 counts.2.2
      share_slow share_fast share_ultra n_stations_calculated
  let site_cost := get_site_cost db s.powertrain_type / ((max s.vehicle_number 1 : ℤ) : ℚ)
  let safety_cost := get_safety_cost db s.powertrain_type n_stations_calculated
      / ((max s.vehicle_number 1 : ℤ) : ℚ)
  let licensing_cost := get_licensing_cost db s.powertrain_type s.country
      / ((max s.vehicle_number 1 : ℤ) : ℚ)
  pure { hardware_cost := hardware_cost
         software_cost := software_cost
         grid_cost := grid_cost
         installation_cost := installation_cost
         site_cost := site_cost
         safety_cost := safety_cost
         licensing_cost := licensing_cost
         infrastructure_cost_per_vehicle := hardware_cost + software_cost + grid_cost
             + installation_cost + site_cost + safety_cost + licensing_cost }

end InfraSys

/-! ## The warranty-penalty formula as the spec words it
For comparison with the source's `compute_warranty` only: this definition
follows the spec sentence "Warranty penalty (%) =
(1 − max(0, 1 − elapsed/warranty_duration)) × 100", not the source. -/

/-- The spec's words, not the source: claimed warranty penalty with the
`max(0, ...)` clamp. -/
def spec_warranty_penalty (elapsed warranty_duration : ℚ) : ℚ :=
  (1 - max 0 (1 - elapsed / warranty_duration)) * 100

/-! ## Concrete data used by witnesses and counterexamples -/

def tC0 : TruckCountryDB :=
  { taxes :=
      { price_energy_km := 2
        tax_energy_c_e := [("diesel", 3)]
        tax_reg_c_k_L := [("N3", 10)]
        tax_annual_c_k_L := [("N3", 20)]
        regional_coefficient := 1
        tax_CO2_c_e := 1
        B_env_c_k_e := [("diesel", 5)] }
    tolls_price_per_km := [("N3", [("diesel", 2)])]
    insurance_rate_c_L_e_safety := [("diesel", 1/10)]
    crew_wage_driver := 100
    energy_price_c_e := [("diesel", 3)] }

def tDb0 : List (String × TruckCountryDB) := [("France", tC0)]

def tIn0 : TruckIn :=
  { purchase_cost := 1000, type_energy := "diesel", size_vehicle := "N3"
    registration_country := "France", annual_distance_travel := 10, RV := 200
    N_years := 2, team_count := 1, maintenance_cost := 50
    consumption_energy := 10, fuel_multiplier := 1, EF_CO2_diesel := 1 }

def tOut0 : TruckOut :=
  { o_taxes := 95, o_tolls := 20, o_insurance := 80, o_crew := 200, o_energy := 30
    o_opex_total := 475 }

/-- a truck whose energy type is absent from the leaf level of the tolls,
insurance and energy tables of `tDb0`. -/
def tIn5 : TruckIn := { tIn0 with type_energy := "electric" }

def sC4 : ShipCountryDB :=
  { co2_price := 2
    tax_energy_classes := [("ro_pax_large", [("DIESEL", [1, 2, 3])])]
    ports := [("ro_pax_large", { port_parameters := [1, 2], port_discounts := [3, 4] })]
    insurance := { insurance_per_type := some [("ro_pax_large", 1/10)]
                   insurance_per_energy := [] }
    wage_of_crew_rank := [("seafarer", 50)]
    maintenance := [("ro_pax_large", 1/2)]
    energy_price_c_e := [("DIESEL", 2)] }

def sDb4 : List (String × ShipCountryDB) := [("France", sC4)]

def sIn4 : ShipIn :=
  { country_reg := "France", country_oper := "France", ship_class := "large"
    energy_type := "DIESEL", purchase_cost := 1000, GT := 10
    planning_horizon_years := 1, crew_monthly_total := 0, crew_team_sizes := [2]
    annual_energy_consumption_kWh := 100, fuel_mass_kg := 2000 }

def sOut4 : ShipOut :=
  { o_taxes := 24, o_ports := 110, o_insurance := 100, o_crew := 100
    o_maintenance := 267, o_energy := 200, o_opex_total := 801 }

/-- a ship whose class and energy type are unknown at every leaf level of
`sDb4`. -/
def sIn5 : ShipIn := { sIn4 with ship_class := "unknown_class", energy_type := "XENON" }

def vpBase : VehicleProps :=
  { type_vehicle := "truck", type_energy := "gasoline", registration_country := "France"
    purchase_cost := 1000, travel_measure := 5, maintenance_cost := 0
    minimum_fuel_consumption := 250, consumption_real := 0, utility_factor := 0
    E_annual_kwh := 0, C_bat_kwh := 1, DoD := 8/10, S_slow := 0, S_fast := 0, S_ultra := 0
    powertrain_model_year := 2020, warranty := 10, type_warranty := "km"
    year_purchase := 2020, current_year := 2020, vehicle_number := 1, autonomy := 1 }

/-- two years past a one-year warranty. -/
def vp6 : VehicleProps := { vpBase with type_warranty := "year", warranty := 1, current_year := 2022 }

/-- the vehicle port's own default warranty-type string `"years"`. -/
def vp9 : VehicleProps := { vpBase with type_warranty := "years" }

/-- a battery-electric vehicle under the fleet variant's naming. -/
def vp10 : VehicleProps := { vpBase with type_energy := "BEV" }

def cp8 : CountryProps := { energy_price := 0, c02_taxes := 0, subsidies := 0 }

def db8A : RVFunctions.DB :=
  { countries :=
      [("France",
        { depreciation := { depreciation_rate_per_year := [("gasoline", 1)]
                            depreciation_rate_by_usage := [("gasoline", 2)]
                            coef_depreciation_maintenance := [("gasoline", 3)] }
          yearly_obsolescence_rate := [("gasoline", 0)]
          external_factors := { energy_price_factor := [("gasoline", 1)]
                                CO2_taxes_factor := 1
                                subsidies_factor := [("gasoline", 1)] } })]
    vehicle := { heating_value := [], consumption_benchmark := [], n_ev := [], n_ice := []
                 d_slow := [], d_fast := [], d_ultra := [], k_d := [] } }

def db8B : RVCalcFleet.DB :=
  { countries :=
      [("France",
        { depreciation := { depreciation_rate_per_year := [("gasoline", 1)]
                            r_usage := [("gasoline", 2)]
                            coef_depreciation_maintenance := [("gasoline", 3)] }
          yearly_obsolescence_rate := [("gasoline", 0)]
          external_factors := { energy_price_factor := [("gasoline", 1)]
                                CO2_taxes_factor := 1
                                subsidies_factor := [("gasoline", 1)] } })]
    vehicle := { heating_value := [], d_slow := [], d_fast := [], d_ultra := [], k_d := [] } }

/-- a zero-size BEV fleet for the CAPEX calculator. -/
def capexIn0 : CapexIn :=
  { type_energy := "BEV", registration_country := "France", vehicle_number := 0
    vehicle_id := 1, vehicle_dict := [], n_slow := none, n_fast := none, n_ultra := none
    n_stations := 0, smart_charging_enabled := false }

/-! ## Helper lemmas -/

theorem lookup?_eq_none_of_not_hasKey {α : Type} (m : List (String × α)) (k : String)
    (h : hasKey m k = false) : lookup? m k = none := by
  unfold lookup?
  unfold hasKey at h
  cases hfind : m.find? (fun p => p.1 == k) with
  | none => rfl
  | some v => rw [hfind] at h; simp at h

theorem lookupD_of_not_hasKey {α : Type} (m : List (String × α)) (k : String) (v : α)
    (h : hasKey m k = false) : lookupD m k v = v := by
  unfold lookupD
  rw [lookup?_eq_none_of_not_hasKey m k h]
  rfl

theorem annuity_eq (r : ℚ) (hr : 0 < r) :
    ∀ n : ℕ, annuity r n = ((1 + r) ^ n - 1) / (r * (1 + r) ^ n) := by
  intro n
  induction n with
  | zero => simp [annuity]
  | succ m ih =>
      have h1 : (0:ℚ) < 1 + r := by linarith
      have hne : (1 + r) ≠ 0 := ne_of_gt h1
      have hpow : (1 + r) ^ m ≠ 0 := pow_ne_zero _ hne
      have hrne : r ≠ 0 := ne_of_gt hr
      unfold annuity at ih ⊢
      rw [Finset.sum_Icc_succ_top (by omega : 1 ≤ m + 1)]
      rw [ih]
      field_simp
      ring

theorem annuity_pos (r : ℚ) (hr : 0 < r) (n : ℕ) (hn : 1 ≤ n) : 0 < annuity r n := by
  unfold annuity
  apply Finset.sum_pos
  · intro k hk
    have h1 : (0:ℚ) < 1 + r := by linarith
    positivity
  · exact ⟨1, by simp [Finset.mem_Icc]; omega⟩

theorem crf_eq_inv_annuity (r : ℚ) (hr : 0 < r) (n : ℕ) (hn : 1 ≤ n) :
    crf r n = 1 / annuity r n := by
  have h1 : (0:ℚ) < 1 + r := by linarith
  have hgt : (1:ℚ) < (1 + r) ^ n := by
    calc (1:ℚ) = 1 ^ n := (one_pow n).symm
    _ < (1 + r) ^ n := by
        apply pow_lt_pow_left₀ (by linarith) (by norm_num)
        omega
  have hdne : (1 + r) ^ n - 1 ≠ 0 := by linarith
  rw [annuity_eq r hr n, crf, if_pos hr]
  rw [one_div_div]

theorem annuity_strict_anti (n : ℕ) (hn : 1 ≤ n) (r₁ r₂ : ℚ)
    (h₁ : 0 < r₁) (h₁₂ : r₁ < r₂) : annuity r₂ n < annuity r₁ n := by
  unfold annuity
  apply Finset.sum_lt_sum_of_nonempty
  · exact ⟨1, by simp [Finset.mem_Icc]; omega⟩
  · intro k hk
    have hk1 : 1 ≤ k := (Finset.mem_Icc.mp hk).1
    have ha : (0:ℚ) < 1 + r₁ := by linarith
    have hb : (0:ℚ) < 1 + r₂ := by linarith
    have hlt : 1 / (1 + r₂) < 1 / (1 + r₁) := by
      apply one_div_lt_one_div_of_lt ha
      linarith
    have hnn : (0:ℚ) ≤ 1 / (1 + r₂) := by positivity
    exact pow_lt_pow_left₀ hlt hnn (by omega)

theorem opexComponentLoop_eq_sum (opex r : ℚ) :
    ∀ N : ℕ, opexComponentLoop opex r N = ∑ n ∈ Finset.Icc 1 N, opex / (1 + r) ^ n := by
  intro N
  induction N with
  | zero => simp [opexComponentLoop]
  | succ m ih =>
      unfold opexComponentLoop at ih ⊢
      rw [List.range_succ, List.foldl_append]
      rw [ih]
      rw [Finset.sum_Icc_succ_top (by omega : 1 ≤ m + 1)]
      simp

/-! ## Claim theorems -/

/-- C1: for every scenario with operating horizon N ≥ 1, discount rate r,
annual OPEX, total CAPEX, residual value RV and capital recovery factor CRF,
the orchestrator's reported total TCO equals
(CAPEX_total − RV/(1+r)^N) × CRF + Σ_{n=1}^{N} OPEX_annual/(1+r)^n, and the
reported equivalent annual cost equals TCO/N. -/
theorem C1_tco_orchestrator_formula
    (capex_total crfv opex_annual rv_value r : ℚ) (N : ℕ) (hN : 1 ≤ N) :
    (run_tco_scenario capex_total crfv opex_annual rv_value r N).tco_total
      = (capex_total - rv_value / (1 + r) ^ N) * crfv
        + ∑ n ∈ Finset.Icc 1 N, opex_annual / (1 + r) ^ n
    ∧ (run_tco_scenario capex_total crfv opex_annual rv_value r N).equivalent_annual_cost
      = (run_tco_scenario capex_total crfv opex_annual rv_value r N).tco_total / (N : ℚ) := by
  constructor
  · simp [run_tco_scenario, opexComponentLoop_eq_sum]
  · rfl

theorem C1_tco_orchestrator_formula_witness :
    (1:ℕ) ≤ 2 ∧
    ((run_tco_scenario 100 2 10 0 0 2).tco_total
       = (100 - 0 / (1 + 0) ^ 2) * 2 + ∑ n ∈ Finset.Icc 1 2, 10 / (1 + 0) ^ n
     ∧ (run_tco_scenario 100 2 10 0 0 2).equivalent_annual_cost
       = (run_tco_scenario 100 2 10 0 0 2).tco_total / ((2:ℕ) : ℚ)) :=
  ⟨by norm_num, C1_tco_orchestrator_formula 100 2 10 0 0 2 (by norm_num)⟩

/-- C2: for every valid truck input (one on which the calculator does not
raise), the output `o_opex_total` equals
`o_taxes + o_tolls + o_insurance + o_crew + o_energy + maintenance_cost`
exactly. -/
theorem C2_truck_opex_total (s : TruckIn) (db : List (String × TruckCountryDB))
    (out : TruckOut) (h : TruckOPEXCalculator.compute s db = some out) :
    out.o_opex_total
      = out.o_taxes + out.o_tolls + out.o_insurance + out.o_crew + out.o_energy
        + s.maintenance_cost := by
  simp only [TruckOPEXCalculator.compute, bind, Option.bind_eq_some, pure,
    Option.some.injEq] at h
  obtain ⟨c, hc, tolls, htolls, ins, hins, en, hen, hout⟩ := h
  subst hout
  rfl

theorem C2_truck_opex_total_witness :
    tOut0.o_opex_total
      = tOut0.o_taxes + tOut0.o_tolls + tOut0.o_insurance + tOut0.o_crew + tOut0.o_energy
        + tIn0.maintenance_cost :=
  C2_truck_opex_total tIn0 tDb0 tOut0 (by
    norm_num [TruckOPEXCalculator.compute, truck_compute_o_taxes, truck_compute_o_tolls,
      truck_compute_o_insurance, truck_compute_o_crew, truck_compute_o_energy,
      tIn0, tDb0, tC0, tOut0, lookup?, lookupD, List.find?, Option.bind])

/-- C3 counterexample: the CRF computed by the CAPEX calculator is not
monotonically increasing in r at the fixed loan term n = 2 > 0: it is 1 at
r = 0 but drops below 1 at the larger rate r = 1/100. -/
theorem C3_crf_monotonicity_counterexample :
    (0:ℚ) < 1/100 ∧ crf (1/100) 2 < crf 0 2 := by
  constructor
  · norm_num
  · norm_num [crf]

/-- C3 amended: the capital recovery factor equals r(1+r)^n / ((1+r)^n − 1)
when the adjusted rate r > 0 and equals 1 when r = 0 (the code's else
branch); CRF(r=0, n) = 1 for every loan term n; and for every fixed n > 0 the
CRF is strictly increasing in r on r > 0 (monotonicity fails at r = 0, where
the else branch returns 1 while nearby positive rates give about 1/n). -/
theorem C3_crf_amended :
    (∀ (r : ℚ) (n : ℕ), 0 < r → crf r n = (r * (1 + r) ^ n) / ((1 + r) ^ n - 1))
    ∧ (∀ n : ℕ, crf 0 n = 1)
    ∧ (∀ (n : ℕ) (r₁ r₂ : ℚ), 1 ≤ n → 0 < r₁ → r₁ < r₂ → crf r₁ n < crf r₂ n) := by
  refine ⟨fun r n hr => by rw [crf, if_pos hr],
          fun n => by rw [crf, if_neg (lt_irrefl 0)], ?_⟩
  intro n r₁ r₂ hn h₁ h₂
  have hr₂ : 0 < r₂ := lt_trans h₁ h₂
  rw [crf_eq_inv_annuity r₁ h₁ n hn, crf_eq_inv_annuity r₂ hr₂ n hn]
  exact one_div_lt_one_div_of_lt (annuity_pos r₂ hr₂ n hn)
    (annuity_strict_anti n hn r₁ r₂ h₁ h₂)

theorem C3_crf_amended_witness :
    crf (1/10) 5 = ((1/10) * (1 + 1/10) ^ 5) / ((1 + 1/10) ^ 5 - 1)
    ∧ crf 0 7 = 1
    ∧ crf (1/10) 3 < crf (2/10) 3 :=
  ⟨C3_crf_amended.1 (1/10) 5 (by norm_num), C3_crf_amended.2.1 7,
   C3_crf_amended.2.2 3 (1/10) (2/10) (by norm_num) (by norm_num) (by norm_num)⟩

/-- C4: in the ship OPEX calculator, maintenance is computed strictly after
taxes, ports, insurance, crew and energy — its value is a function of the
five already-computed components — and equals
(o_taxes + o_ports + o_insurance + o_crew + o_energy) × maintenance_rate for
the ship class; hence changing any one of the five upstream component values
by δ changes `o_maintenance` by exactly maintenance_rate × δ. -/
theorem C4_ship_maintenance_last_and_linear :
    (∀ (s : ShipIn) (db : List (String × ShipCountryDB)) (out : ShipOut)
        (coper : ShipCountryDB),
        ShipOPEXCalculator.compute s db = some out →
        lookup? db s.country_oper = some coper →
        out.o_maintenance
          = (out.o_taxes + out.o_ports + out.o_insurance + out.o_crew + out.o_energy)
            * lookupD coper.maintenance (map_ship_class_to_db_key s.ship_class) 0)
    ∧ (∀ (s : ShipIn) (c : ShipCountryDB) (t p i cr en δ : ℚ),
        (compute_o_maintenance_ship s c (t + δ) p i cr en
          = compute_o_maintenance_ship s c t p i cr en
            + lookupD c.maintenance (map_ship_class_to_db_key s.ship_class) 0 * δ)
        ∧ (compute_o_maintenance_ship s c t (p + δ) i cr en
          = compute_o_maintenance_ship s c t p i cr en
            + lookupD c.maintenance (map_ship_class_to_db_key s.ship_class) 0 * δ)
        ∧ (compute_o_maintenance_ship s c t p (i + δ) cr en
          = compute_o_maintenance_ship s c t p i cr en
            + lookupD c.maintenance (map_ship_class_to_db_key s.ship_class) 0 * δ)
        ∧ (compute_o_maintenance_ship s c t p i (cr + δ) en
          = compute_o_maintenance_ship s c t p i cr en
            + lookupD c.maintenance (map_ship_class_to_db_key s.ship_class) 0 * δ)
        ∧ (compute_o_maintenance_ship s c t p i cr (en + δ)
          = compute_o_maintenance_ship s c t p i cr en
            + lookupD c.maintenance (map_ship_class_to_db_key s.ship_class) 0 * δ)) := by
  constructor
  · intro s db out coper h hoper
    simp only [ShipOPEXCalculator.compute, bind, Option.bind_eq_some, pure,
      Option.some.injEq] at h
    obtain ⟨creg, hcreg, coper', hcoper', taxes, htaxes, hout⟩ := h
    rw [hoper] at hcoper'
    injection hcoper' with hco
    subst hco
    subst hout
    rfl
  · intro s c t p i cr en δ
    refine ⟨?_, ?_, ?_, ?_, ?_⟩ <;> (unfold compute_o_maintenance_ship; ring)

theorem C4_ship_maintenance_witness :
    sOut4.o_maintenance
      = (sOut4.o_taxes + sOut4.o_ports + sOut4.o_insurance + sOut4.o_crew + sOut4.o_energy)
        * lookupD sC4.maintenance (map_ship_class_to_db_key sIn4.ship_class) 0
    ∧ (compute_o_maintenance_ship sIn4 sC4 (1 + 2) 3 4 5 6
        = compute_o_maintenance_ship sIn4 sC4 1 3 4 5 6
          + lookupD sC4.maintenance (map_ship_class_to_db_key sIn4.ship_class) 0 * 2) :=
  ⟨C4_ship_maintenance_last_and_linear.1 sIn4 sDb4 sOut4 sC4
      (by
        norm_num [ShipOPEXCalculator.compute, compute_o_taxes_ship, compute_o_ports_ship,
          compute_o_insurance_ship, compute_o_crew_ship, compute_o_energy_ship,
          compute_o_maintenance_ship, zipDot, map_ship_class_to_db_key, SHIP_CLASS_TO_DB_KEY,
          sIn4, sC4, sDb4, sOut4, lookup?, lookupD, hasKey, List.find?, List.zip,
          List.zipWith, Option.bind])
      rfl,
   (C4_ship_maintenance_last_and_linear.2 sIn4 sC4 1 3 4 5 6 2).1⟩

/-- C5 counterexample: the truck OPEX calculator does not silently default an
unknown energy type at leaf level: the energy type "electric" is absent from
the tolls table of `tC0` for class "N3", and `compute` raises `ValueError`
(`none`) instead of returning a (possibly zero-cost) result. -/
theorem C5_truck_unknown_leaf_raises :
    hasKey (lookupD tC0.tolls_price_per_km "N3" []) "electric" = false
    ∧ TruckOPEXCalculator.compute tIn5 tDb0 = none := by
  constructor
  · decide
  · rfl

/-- C5 amended: in the ship OPEX calculator an unknown ship class or energy
type at leaf level is silently defaulted to zero and the computation still
returns a (zero-cost apart from crew) result; the truck calculator, however,
only defaults unknown keys inside the taxes computation and raises an error
in the tolls, insurance and energy lookups. -/
theorem C5_ship_unknown_leaf_defaults_to_zero
    (s : ShipIn) (db : List (String × ShipCountryDB)) (creg coper : ShipCountryDB)
    (hreg : lookup? db s.country_reg = some creg)
    (hoper : lookup? db s.country_oper = some coper)
    (htax : hasKey creg.tax_energy_classes (map_ship_class_to_db_key s.ship_class) = false)
    (hports : hasKey coper.ports (map_ship_class_to_db_key s.ship_class) = false)
    (hinsT : ∀ pt, creg.insurance.insurance_per_type = some pt →
      hasKey pt (map_ship_class_to_db_key s.ship_class) = false)
    (hinsE : hasKey creg.insurance.insurance_per_energy s.energy_type = false)
    (hen : hasKey coper.energy_price_c_e s.energy_type = false)
    (hmnt : hasKey coper.maintenance (map_ship_class_to_db_key s.ship_class) = false) :
    ShipOPEXCalculator.compute s db
      = some { o_taxes := 0, o_ports := 0, o_insurance := 0
               o_crew := compute_o_crew_ship s creg
               o_maintenance := 0, o_energy := 0
               o_opex_total := compute_o_crew_ship s creg } := by
  have htax0 : compute_o_taxes_ship s creg = some 0 := by
    simp only [compute_o_taxes_ship, lookup?_eq_none_of_not_hasKey _ _ htax]
  have hports0 : compute_o_ports_ship s coper = 0 := by
    simp only [compute_o_ports_ship, lookup?_eq_none_of_not_hasKey _ _ hports]
  have hE := lookupD_of_not_hasKey creg.insurance.insurance_per_energy s.energy_type (0:ℚ)
    hinsE
  have hins0 : compute_o_insurance_ship s creg = 0 := by
    cases hpt : creg.insurance.insurance_per_type with
    | none => simp [compute_o_insurance_ship, hpt, hE]
    | some pt => simp [compute_o_insurance_ship, hpt, hinsT pt hpt, hE]
  have hen0 : compute_o_energy_ship s coper = 0 := by
    simp [compute_o_energy_ship, lookupD_of_not_hasKey _ _ _ hen]
  have hmnt0 : ∀ t p i c en', compute_o_maintenance_ship s coper t p i c en' = 0 := by
    intro t p i c en'
    simp [compute_o_maintenance_ship, lookupD_of_not_hasKey _ _ _ hmnt]
  simp [ShipOPEXCalculator.compute, hreg, hoper, htax0, hports0, hins0, hen0, hmnt0,
    Option.bind]

theorem C5_ship_unknown_leaf_defaults_witness :
    ShipOPEXCalculator.compute sIn5 sDb4
      = some { o_taxes := 0, o_ports := 0, o_insurance := 0
               o_crew := compute_o_crew_ship sIn5 sC4
               o_maintenance := 0, o_energy := 0
               o_opex_total := compute_o_crew_ship sIn5 sC4 } :=
  C5_ship_unknown_leaf_defaults_to_zero sIn5 sDb4 sC4 sC4 rfl rfl (by decide) (by decide)
    (fun pt hpt => by
      rw [show sC4.insurance.insurance_per_type
            = some [("ro_pax_large", (1/10 : ℚ))] from rfl] at hpt
      injection hpt with h
      subst h
      decide)
    (by decide) (by decide) (by decide)

/-- C6 counterexample: with a one-year "year"-type warranty elapsed two
years, the code's warranty penalty is 200%, while the spec's clamped formula
(1 − max(0, 1 − elapsed/warranty)) × 100 gives 100%; so the penalty does not
equal 100% whenever elapsed ≥ warranty_duration. -/
theorem C6_warranty_penalty_counterexample :
    compute_warranty vp6 = 200 ∧ spec_warranty_penalty 2 1 = 100 := by
  constructor
  · norm_num [compute_warranty, vp6, vpBase]
  · norm_num [spec_warranty_penalty, max_def]

/-- C6 amended: for the recognized warranty types "year" and "km" with
warranty_duration > 0, the penalty is (elapsed/warranty_duration) × 100 with
no clamping: it equals 0% when elapsed = 0 and 100% exactly at
elapsed = warranty_duration, but exceeds 100% whenever
elapsed > warranty_duration. -/
theorem C6_warranty_penalty_amended (vp : VehicleProps) (hw : 0 < vp.warranty) :
    (vp.type_warranty = "year" →
      compute_warranty vp
        = ((vp.current_year - vp.year_purchase : ℤ) : ℚ) / vp.warranty * 100)
    ∧ (vp.type_warranty = "km" →
      compute_warranty vp = vp.travel_measure / vp.warranty * 100)
    ∧ (vp.type_warranty = "year" → vp.current_year = vp.year_purchase →
      compute_warranty vp = 0)
    ∧ (vp.type_warranty = "km" → vp.travel_measure = 0 → compute_warranty vp = 0)
    ∧ (vp.type_warranty = "year" →
        vp.warranty = ((vp.current_year - vp.year_purchase : ℤ) : ℚ) →
      compute_warranty vp = 100)
    ∧ (vp.type_warranty = "year" →
        vp.warranty < ((vp.current_year - vp.year_purchase : ℤ) : ℚ) →
      100 < compute_warranty vp) := by
  have hwne : vp.warranty ≠ 0 := ne_of_gt hw
  have hyear : vp.type_warranty = "year" →
      compute_warranty vp
        = ((vp.current_year - vp.year_purchase : ℤ) : ℚ) / vp.warranty * 100 := by
    intro hty
    unfold compute_warranty
    rw [if_pos hty, if_pos hw]
    ring
  have hkm : vp.type_warranty = "km" →
      compute_warranty vp = vp.travel_measure / vp.warranty * 100 := by
    intro hty
    have hty' : vp.type_warranty ≠ "year" := by rw [hty]; decide
    unfold compute_warranty
    rw [if_neg hty', if_pos hty, if_pos hw]
    ring
  refine ⟨hyear, hkm, ?_, ?_, ?_, ?_⟩
  · intro hty h0
    rw [hyear hty, h0]
    simp
  · intro hty h0
    rw [hkm hty, h0]
    simp
  · intro hty heq
    rw [hyear hty, ← heq, div_self hwne]
    ring
  · intro hty hlt
    rw [hyear hty]
    have h1 : (1:ℚ) < ((vp.current_year - vp.year_purchase : ℤ) : ℚ) / vp.warranty :=
      (one_lt_div hw).mpr hlt
    nlinarith

theorem C6_warranty_penalty_amended_witness :
    compute_warranty vp6
      = ((vp6.current_year - vp6.year_purchase : ℤ) : ℚ) / vp6.warranty * 100
    ∧ 100 < compute_warranty vp6 :=
  ⟨(C6_warranty_penalty_amended vp6 (by norm_num [vp6, vpBase])).1 rfl,
   (C6_warranty_penalty_amended vp6 (by norm_num [vp6, vpBase])).2.2.2.2.2 rfl
     (by norm_num [vp6, vpBase])⟩

/-- C7 counterexample: in `VehicleCAPEXCalculator.compute_c_infrastructure_cost`
the divisions by the fleet size are not guarded: with `vehicle_number = 0`
the computation raises `ZeroDivisionError` (`none`), while the very same
input with fleet size 1 completes. -/
theorem C7_unguarded_fleet_size_division :
    compute_c_infrastructure_cost capexIn0 [] = none
    ∧ compute_c_infrastructure_cost { capexIn0 with vehicle_number := 1 } []
      = some { c_infrastructure_hardware := 0, c_infrastructure_grid := 0
               c_infrastructure_installation := 0, c_infrastructure_cost := 0 } := by
  constructor <;>
  norm_num [compute_c_infrastructure_cost, charging_infrastructure, get_country_data,
    CapexCountryDB.empty, compute_fleet_energy, get_software_cost, get_grid_cost,
    FleetVData.empty, capexIn0, lookup?, lookupD, hasKey, List.find?, Option.bind]

/-- C7 amended: in the `InfrastructureSystem` CAPEX variant every division by
the fleet size is guarded by `max(vehicle_number, 1)`, so a fleet size of
zero behaves exactly like a fleet size of one, for every input and database
(errors included); the `VehicleCAPEXCalculator` variant lacks the guard and
raises `ZeroDivisionError` on `vehicle_number = 0`. -/
theorem C7_infrasys_division_guarded (s : InfraSys.In) (db : InfraSys.DBv) :
    InfraSys.compute { s with vehicle_number := 0 } db
      = InfraSys.compute { s with vehicle_number := 1 } db := by
  rfl

theorem C8h_rvA_depreciation : RVFunctions.compute_depreciation vpBase db8A = some 990 := by
  norm_num [RVFunctions.compute_depreciation, vpBase, db8A, lookup?, lookupD, List.find?,
    Option.bind]

theorem C8h_rvA_eficiency : RVFunctions.compute_eficiency vpBase db8A = some 60 := by
  norm_num [RVFunctions.compute_eficiency, vpBase, db8A, lookup?, lookupD, List.find?,
    Option.bind] <;> decide

theorem C8h_rvA_obsolescence (e : ℚ → ℚ) :
    RVFunctions.compute_obsolescence e vpBase db8A = some ((1 - e 0) * 100) := by
  norm_num [RVFunctions.compute_obsolescence, vpBase, db8A, lookup?, lookupD, List.find?,
    Option.bind]

theorem C8h_rvA_charging (e : ℚ → ℚ) :
    RVFunctions.compute_charging e vpBase db8A = some 0 := rfl

theorem C8h_warranty_vpBase : compute_warranty vpBase = 50 := by
  norm_num [compute_warranty, vpBase, show ¬("km" = "year") from by decide]

theorem C8h_rvA_impact_health (e : ℚ → ℚ) :
    RVFunctions.compute_impact_health e vpBase db8A = some ((1 - e 0) * 100 + 110) := by
  simp only [RVFunctions.compute_impact_health, C8h_rvA_eficiency, C8h_rvA_obsolescence e,
    C8h_rvA_charging e, C8h_warranty_vpBase, bind, Option.bind, Option.pure_def,
    Option.some.injEq]
  ring

theorem C8h_rvA_external :
    RVFunctions.compute_external_factors vpBase cp8 db8A = some 0 := by
  norm_num [RVFunctions.compute_external_factors, vpBase, cp8, db8A, lookup?, lookupD,
    List.find?, Option.bind]

theorem C8h_rvA_compute (e : ℚ → ℚ) (he : e 0 = 1) :
    RVFunctions.compute e vpBase cp8 db8A = some 1100 := by
  simp only [RVFunctions.compute, C8h_rvA_depreciation, C8h_rvA_impact_health e,
    C8h_rvA_external, bind, Option.bind, Option.some.injEq, he]
  norm_num

theorem C8h_rvB_depreciation : RVCalcFleet.compute_depreciation vpBase db8B = some 990 := by
  norm_num [RVCalcFleet.compute_depreciation, vpBase, db8B, lookup?, lookupD, List.find?,
    Option.bind]

theorem C8h_rvB_eficiency : RVCalcFleet.compute_eficiency vpBase db8B = some 60 := by
  norm_num [RVCalcFleet.compute_eficiency, vpBase, db8B, lookup?, lookupD, List.find?,
    Option.bind] <;> decide

theorem C8h_rvB_obsolescence (e : ℚ → ℚ) :
    RVCalcFleet.compute_obsolescence e vpBase db8B = some ((1 - e 0) * 100) := by
  norm_num [RVCalcFleet.compute_obsolescence, vpBase, db8B, lookup?, lookupD, List.find?,
    Option.bind]

theorem C8h_rvB_charging (e : ℚ → ℚ) :
    RVCalcFleet.compute_charging e vpBase db8B = some 0 := rfl

theorem C8h_rvB_impact_health (e : ℚ → ℚ) :
    RVCalcFleet.compute_impact_health e vpBase db8B = some ((1 - e 0) * 100 + 110) := by
  simp only [RVCalcFleet.compute_impact_health, C8h_rvB_eficiency, C8h_rvB_obsolescence e,
    C8h_rvB_charging e, C8h_warranty_vpBase, bind, Option.bind, Option.some.injEq]
  norm_num [vpBase]
  ring

theorem C8h_rvB_external :
    RVCalcFleet.compute_external_factors vpBase cp8 db8B = some 0 := by
  norm_num [RVCalcFleet.compute_external_factors, vpBase, cp8, db8B, lookup?, lookupD,
    List.find?, Option.bind]

theorem C8h_rvB_steps (e : ℚ → ℚ) :
    RVCalcFleet.computeSteps e vpBase cp8 db8B = some (990, (1 - e 0) * 100 + 110, 0) := by
  simp only [RVCalcFleet.computeSteps, C8h_rvB_depreciation, C8h_rvB_impact_health e,
    C8h_rvB_external, bind, Option.bind, Option.pure_def, Option.some.injEq]

theorem C8h_rvB_compute (e : ℚ → ℚ) (he : e 0 = 1) :
    RVCalcFleet.compute e vpBase cp8 db8B = 9 := by
  simp only [RVCalcFleet.compute, C8h_rvB_steps e, he]
  norm_num

/-- C8: the two residual-value calculator variants are not extensionally
equal: on the concrete input (`vpBase`, `cp8`) with databases `db8A`/`db8B`
holding the same rates, the variant combining
rv = depreciation + impact_health + external_factors returns 1100, while the
variant combining rv = depreciation / impact_health + external_factors
returns 9 — for every exponential function with e 0 = 1, which holds of the
real exponential. -/
theorem C8_rv_combination_variants_differ (e : ℚ → ℚ) (he : e 0 = 1) :
    RVFunctions.compute e vpBase cp8 db8A = some 1100
    ∧ RVCalcFleet.compute e vpBase cp8 db8B = 9
    ∧ (1100 : ℚ) ≠ 9 :=
  ⟨C8h_rvA_compute e he, C8h_rvB_compute e he, by norm_num⟩

theorem C8_rv_combination_variants_differ_witness :
    RVFunctions.compute (fun _ => 1) vpBase cp8 db8A = some 1100
    ∧ RVCalcFleet.compute (fun _ => 1) vpBase cp8 db8B = 9
    ∧ (1100 : ℚ) ≠ 9 :=
  C8_rv_combination_variants_differ (fun _ => 1) rfl

/-- C9 (implicit): in the residual-value calculator, for every vehicle whose
`type_warranty` string is neither "year" nor "km" — including the port's own
default value "years" — the warranty penalty is exactly 100%, regardless of
elapsed time, travel distance, or warranty duration. -/
theorem C9_unrecognized_warranty_type_full_penalty (vp : VehicleProps)
    (h1 : vp.type_warranty ≠ "year") (h2 : vp.type_warranty ≠ "km") :
    compute_warranty vp = 100 := by
  unfold compute_warranty
  rw [if_neg h1, if_neg h2]
  norm_num

theorem C9_unrecognized_warranty_type_full_penalty_witness :
    compute_warranty vp9 = 100 :=
  C9_unrecognized_warranty_type_full_penalty vp9 (by decide) (by decide)

/-- C10 (implicit): in the fleet residual-value calculator variant, the
charging (battery-degradation) penalty is 0.0 for every `type_energy` other
than the exact string "electric"; in particular vehicles labelled "BEV" or
"FCEV" — the names this variant's efficiency computation itself uses — never
receive a nonzero charging penalty, for all charging-profile inputs and for
every exponential function. -/
theorem C10_fleet_charging_penalty_zero_for_non_electric :
    (∀ (e : ℚ → ℚ) (vp : VehicleProps) (db : RVCalcFleet.DB),
        vp.type_energy ≠ "electric" → RVCalcFleet.compute_charging e vp db = some 0)
    ∧ (∀ (e : ℚ → ℚ) (vp : VehicleProps) (db : RVCalcFleet.DB),
        vp.type_energy = "BEV" ∨ vp.type_energy = "FCEV" →
          RVCalcFleet.compute_charging e vp db = some 0) := by
  have main : ∀ (e : ℚ → ℚ) (vp : VehicleProps) (db : RVCalcFleet.DB),
      vp.type_energy ≠ "electric" → RVCalcFleet.compute_charging e vp db = some 0 := by
    intro e vp db h
    unfold RVCalcFleet.compute_charging
    rw [if_neg h]
    rfl
  refine ⟨main, fun e vp db h => main e vp db ?_⟩
  rcases h with h | h <;> rw [h] <;> decide

theorem C10_fleet_charging_penalty_zero_witness :
    RVCalcFleet.compute_charging (fun _ => 1) vp10 db8B = some 0 :=
  C10_fleet_charging_penalty_zero_for_non_electric.1 (fun _ => 1) vp10 db8B (by decide)

end TcoEco4Impact
